import Mathlib

/-!
# Verification of the Xbox-Code-Checker validation engine

Shallow embedding of the concurrent validation engine of the
Xbox-Code-Checker repository: the data model (`src/data/models.py`), the
credential pool and response classifier (`src/data/api_client.py`), the
retry policy and circuit breaker (`src/core/retry_manager.py`), and the
orchestrator state machine (`src/core/code_checker.py`).

Timestamps (`datetime.now()` values) are modelled as integers or rationals
counting seconds; random draws (`random.choice`, `random.uniform`) are
modelled by explicit parameters ranging over the draw's support.
-/

namespace XCC

/-- `CodeStatus` enum from `src/data/models.py`. -/
inductive CodeStatus where
  | pending
  | valid
  | used
  | invalid
  | expired
  | rateLimited
  | error
  | skipped
  | wlidTokenError
deriving DecidableEq, Repr

/-- `SessionStatus` enum from `src/data/models.py`. -/
inductive SessionStatus where
  | idle
  | running
  | paused
  | stopped
  | completed
  | sessionError
deriving DecidableEq, Repr

/-- `CodeResult` dataclass from `src/data/models.py` (the `response_data`
snapshot is omitted as it never influences control flow; the timestamp is
an integer second count). -/
structure CodeResult where
  code : String
  status : CodeStatus
  timestamp : Int := 0
  details : String := ""
deriving DecidableEq, Repr

/-- `WLIDToken` dataclass from `src/data/models.py`. -/
structure WLIDToken where
  token : String
  is_valid : Bool := true
  last_used : Option Int := none
  error_count : Nat := 0
  rate_limited_until : Option Int := none
deriving DecidableEq, Repr

/-- `WLIDToken.mark_error`: increment `error_count`; at 3 or more the token
becomes invalid. -/
def WLIDToken.mark_error (t : WLIDToken) : WLIDToken :=
  let t1 : WLIDToken := { t with error_count := t.error_count + 1 }
  if 3 ≤ t1.error_count then { t1 with is_valid := false } else t1

/-- `WLIDToken.mark_used`: stamp `last_used = now`. -/
def WLIDToken.mark_used (now : Int) (t : WLIDToken) : WLIDToken :=
  { t with last_used := some now }

/-- `WLIDToken.mark_rate_limited`: set `rate_limited_until = now + duration`
(default 300 s). -/
def WLIDToken.mark_rate_limited (now : Int) (duration : Int) (t : WLIDToken) :
    WLIDToken :=
  { t with rate_limited_until := some (now + duration) }

/-- `WLIDToken.is_rate_limited`: true while `now < rate_limited_until`. -/
def WLIDToken.is_rate_limited (now : Int) (t : WLIDToken) : Bool :=
  match t.rate_limited_until with
  | none => false
  | some u => now < u

/-- `WLIDToken.is_available`: valid and not rate limited. -/
def WLIDToken.is_available (now : Int) (t : WLIDToken) : Bool :=
  t.is_valid && !t.is_rate_limited now

/-- Per-token effect of `APIClient.test_wlid_tokens`
(`src/data/api_client.py` lines 926–933): a 401 response sets
`is_valid = False`; a 200 or 404 response sets `is_valid = True` (without
touching `error_count`); any other status leaves the token unchanged. -/
def WLIDToken.test_update (status_code : Nat) (t : WLIDToken) : WLIDToken :=
  if status_code = 401 then { t with is_valid := false }
  else if status_code = 200 ∨ status_code = 404 then { t with is_valid := true }
  else t

/-- The mutations the checking engine itself performs on a credential
(`mark_used` / `mark_error` / `mark_rate_limited`). -/
inductive EngineOp where
  | markError
  | markUsed (now : Int)
  | markRateLimited (now : Int) (duration : Int)
deriving DecidableEq, Repr

/-- Any operation the program performs on a credential: the three engine
mutations plus the per-token update done by `test_wlid_tokens`. -/
inductive TokenOp where
  | engine (op : EngineOp)
  | testUpdate (status_code : Nat)
deriving DecidableEq, Repr

def applyEngineOp : EngineOp → WLIDToken → WLIDToken
  | .markError, t => t.mark_error
  | .markUsed now, t => t.mark_used now
  | .markRateLimited now d, t => t.mark_rate_limited now d

def applyTokenOp : TokenOp → WLIDToken → WLIDToken
  | .engine op, t => applyEngineOp op t
  | .testUpdate sc, t => t.test_update sc

def applyEngineOps (ops : List EngineOp) (t : WLIDToken) : WLIDToken :=
  ops.foldl (fun t op => applyEngineOp op t) t

def applyTokenOps (ops : List TokenOp) (t : WLIDToken) : WLIDToken :=
  ops.foldl (fun t op => applyTokenOp op t) t

/-- The `errorCount ≥ 3 ⇒ valid == false` invariant claimed for credentials. -/
def tokenInvariant (t : WLIDToken) : Prop :=
  3  ≤ t.error_count → t.is_valid = false

instance (t : WLIDToken) : Decidable (tokenInvariant t) := by
  unfold tokenInvariant; infer_instance

/-- `APIClient.get_available_wlid` (`src/data/api_client.py` lines 291–320):
filter to available tokens; if none, return `none`; otherwise prefer tokens
unused in the last 60 s and pick one at random (`random.choice` is modelled
by the index `pick` into the candidate list). -/
def get_available_wlid (now : Int) (pick : Nat) (tokens : List WLIDToken) :
    Option WLIDToken :=
  let available := tokens.filter (fun t => t.is_available now)
  if available.isEmpty then none
  else
    let unused := available.filter (fun t =>
      match t.last_used with
      | none => true
      | some lu => 60 < now - lu)
    if unused.isEmpty then available.get? (pick % available.length)
    else unused.get? (pick % unused.length)

/-- A fresh token as wrapped from a raw secret string: valid, no errors. -/
def freshToken (s : String) : WLIDToken := { token := s }

/-! ## Retry manager (`src/core/retry_manager.py`) -/

/-- `RetryReason` enum. -/
inductive RetryReason where
  | rateLimited
  | networkError
  | serverError
  | timeout
  | connectionError
  | unknownError
deriving DecidableEq, Repr

/-- `RetryConfig` dataclass with its source defaults. -/
structure RetryConfig where
  base_delay : ℚ := 1.0
  max_delay : ℚ := 60.0
  backoff_factor : ℚ := 2.0
  max_attempts : Nat := 5
  jitter_factor : ℚ := 0.3
  rate_limit_base_delay : ℚ := 2.0
  rate_limit_max_delay : ℚ := 120.0
  rate_limit_max_attempts : Nat := 8
  network_error_base_delay : ℚ := 0.5
  network_error_max_delay : ℚ := 30.0
  network_error_max_attempts : Nat := 3
  server_error_base_delay : ℚ := 1.0
  server_error_max_delay : ℚ := 60.0
  server_error_max_attempts : Nat := 4
deriving DecidableEq, Repr

/-- The default `RetryConfig()`. -/
def defaultRetryConfig : RetryConfig := {}

/-- The configuration built by `APIClient._create_default_retry_config`. -/
def apiClientRetryConfig : RetryConfig :=
  { base_delay := 1.0, max_delay := 60.0, backoff_factor := 2.0,
    max_attempts := 3, jitter_factor := 0.3,
    rate_limit_base_delay := 5.0, rate_limit_max_delay := 300.0,
    rate_limit_max_attempts := 5,
    network_error_base_delay := 0.5, network_error_max_delay := 30.0,
    network_error_max_attempts := 3,
    server_error_base_delay := 2.0, server_error_max_delay := 120.0,
    server_error_max_attempts := 4 }

/-- `RetryManager._get_max_attempts_for_reason`. -/
def get_max_attempts_for_reason (cfg : RetryConfig) : RetryReason → Nat
  | .rateLimited => cfg.rate_limit_max_attempts
  | .networkError => cfg.network_error_max_attempts
  | .connectionError => cfg.network_error_max_attempts
  | .serverError => cfg.server_error_max_attempts
  | _ => cfg.max_attempts

/-- `RetryManager._get_delay_config_for_reason`: `(base, cap, factor)`. -/
def get_delay_config_for_reason (cfg : RetryConfig) : RetryReason → ℚ × ℚ × ℚ
  | .rateLimited =>
    (cfg.rate_limit_base_delay, cfg.rate_limit_max_delay, cfg.backoff_factor)
  | .networkError =>
    (cfg.network_error_base_delay, cfg.network_error_max_delay, cfg.backoff_factor)
  | .connectionError =>
    (cfg.network_error_base_delay, cfg.network_error_max_delay, cfg.backoff_factor)
  | .serverError =>
    (cfg.server_error_base_delay, cfg.server_error_max_delay, cfg.backoff_factor)
  | _ => (cfg.base_delay, cfg.max_delay, cfg.backoff_factor)

/-- Substring test on character lists (Python `needle in hay`). -/
def listInfixOf (needle hay : List Char) : Bool :=
  hay.tails.any (fun t => needle.isPrefixOf t)

/-- Python `needle in hay` on strings. -/
def strContains (hay needle : String) : Bool :=
  listInfixOf needle.toList hay.toList

/-- A raised Python exception, reduced to the attributes
`RetryManager._classify_error` inspects: its message string and which
exception classes it is an instance of. -/
structure PyError where
  message : String
  isConnectionError : Bool := false
  isOSError : Bool := false
  isTimeoutError : Bool := false
deriving DecidableEq, Repr

/-- `RetryManager._classify_error` (`src/core/retry_manager.py` lines
275–313).  `status_code` of `0` is falsy in Python, hence skipped. -/
def classify_error (e : PyError) (status_code : Option Nat) : RetryReason :=
  let error_str := e.message.toLower
  match status_code with
  | some sc =>
    if sc ≠ 0 then
      if sc = 429 then .rateLimited
      else if 500 ≤ sc ∧ sc < 600 then .serverError
      else classifyByMessage e error_str
    else classifyByMessage e error_str
  | none => classifyByMessage e error_str
where
  classifyByMessage (e : PyError) (error_str : String) : RetryReason :=
    if strContains error_str "timeout" || strContains error_str "timed out" then
      .timeout
    else if strContains error_str "connection" || strContains error_str "network" then
      .connectionError
    else if strContains error_str "rate limit" || strContains error_str "too many requests" then
      .rateLimited
    else if strContains error_str "server error" || strContains error_str "internal server error" then
      .serverError
    else if e.isConnectionError || e.isOSError then .connectionError
    else if e.isTimeoutError then .timeout
    else .unknownError

/-- `RetryManager._extract_retry_after`: the source unconditionally returns
`None` ("we don't have access to response headers"). -/
def extract_retry_after (_e : PyError) : Option ℚ := none

/-- Core of `RetryManager.calculate_delay` (lines 125–158) for a given
error class and attempt number.  `u ∈ [-1, 1]` models the draw of
`random.uniform(-1, 1)`. -/
def calculate_delay_core (cfg : RetryConfig) (reason : RetryReason)
    (attempt_number : Nat) (u : ℚ) : ℚ :=
  let bcf := get_delay_config_for_reason cfg reason
  let base_delay := bcf.1
  let max_delay := bcf.2.1
  let backoff_factor := bcf.2.2
  let delay := min (base_delay * backoff_factor ^ attempt_number) max_delay
  let jitter := delay * cfg.jitter_factor * u
  max 0.1 (delay + jitter)

/-- The pre-jitter delay `min(base × multiplier^attempt, cap)`. -/
def preJitterDelay (cfg : RetryConfig) (reason : RetryReason)
    (attempt_number : Nat) : ℚ :=
  let bcf := get_delay_config_for_reason cfg reason
  min (bcf.1 * bcf.2.2 ^ attempt_number) bcf.2.1

/-- `RetryManager.calculate_delay`: classify the error, compute the jittered
backoff, and raise the delay to the `Retry-After` floor for rate limiting —
a floor that never applies because `extract_retry_after` is constantly
`none`. -/
def calculate_delay (cfg : RetryConfig) (e : PyError) (status_code : Option Nat)
    (attempt_number : Nat) (u : ℚ) : ℚ :=
  let reason := classify_error e status_code
  let delay := calculate_delay_core cfg reason attempt_number u
  if reason = .rateLimited then
    match extract_retry_after e with
    | some retry_after => max delay retry_after
    | none => delay
  else delay

/-- Circuit-breaker state of a `RetryManager`:
`circuit_breaker_failures` and `circuit_breaker_reset_time`
(threshold 10, timeout 300 s are fixed in `__init__`). -/
structure RMState where
  failures : Nat
  resetTime : Option ℚ := none
deriving DecidableEq, Repr

/-- `RetryManager._is_circuit_breaker_open` (lines 367–384), returning the
answer together with the mutated state.  Below the threshold it is closed;
otherwise, on the first query the reset time is fixed to `now + 300` and the
breaker reports open; once `now` reaches the reset time the state is cleared
and the breaker reports closed. -/
def is_circuit_breaker_open (now : ℚ) (s : RMState) : Bool × RMState :=
  if s.failures < 10 then (false, s)
  else
    match s.resetTime with
    | none => (true, { s with resetTime := some (now + 300) })
    | some rt =>
      if rt ≤ now then (false, { failures := 0, resetTime := none })
      else (true, s)

/-- `RetryManager.should_retry` (lines 89–123): refuse while the breaker is
open; refuse once the per-code attempt list has reached the class's maximum;
refuse unknown errors with HTTP status 400/401/403/404; otherwise retry.
`attempts` is `len(self.retry_attempts.get(code, []))`. -/
def should_retry (cfg : RetryConfig) (now : ℚ) (s : RMState) (attempts : Nat)
    (e : PyError) (status_code : Option Nat) : Bool × RMState :=
  let os := is_circuit_breaker_open now s
  if os.1 then (false, os.2)
  else
    let retry_reason := classify_error e status_code
    let max_attempts := get_max_attempts_for_reason cfg retry_reason
    if max_attempts ≤ attempts then (false, os.2)
    else if retry_reason = .unknownError ∧
        (status_code = some 400 ∨ status_code = some 401 ∨
         status_code = some 403 ∨ status_code = some 404) then
      (false, os.2)
    else (true, os.2)

/-! ## Response classifier (`src/data/api_client.py`) -/

/-- JSON values as parsed from the response body (`response.json()`). -/
inductive Json where
  | null
  | str (s : String)
  | num (n : Int)
  | bool (b : Bool)
  | obj (fields : List (String × Json))
  | arr (elems : List Json)

/-- Dictionary lookup `json_data.get(key)` / `key in json_data`. -/
def Json.get : Json → String → Option Json
  | .obj fields, k => fields.lookup k
  | _, _ => none

/-- Python `str.get(key, '')` coerced to a string: fields that are not
strings compare unequal to every string literal, modelled as `""`
(claim-relevant inputs only carry string fields here). -/
def Json.getStr (j : Json) (k : String) : String :=
  match j.get k with
  | some (.str s) => s
  | _ => ""

/-- An ASCII apostrophe, kept out of string literals. -/
def aposStr : String := String.singleton (Char.ofNat 39)

mutual

/-- Python `str()` of a JSON value (dict/list repr), used by the fallback
substring scans. -/
def Json.reprPy : Json → String
  | .null => "None"
  | .str s => aposStr ++ s ++ aposStr
  | .num n => toString n
  | .bool b => if b then "True" else "False"
  | .obj fields => "\x7b" ++ String.intercalate ", " (reprPyFields fields) ++ "\x7d"
  | .arr elems => "[" ++ String.intercalate ", " (reprPyList elems) ++ "]"

def Json.reprPyFields : List (String × Json) → List String
  | [] => []
  | (k, v) :: rest => (aposStr ++ k ++ aposStr ++ ": " ++ v.reprPy) :: reprPyFields rest

def Json.reprPyList : List Json → List String
  | [] => []
  | e :: rest => e.reprPy :: reprPyList rest

end

/-- Python `f"{value}"` formatting: strings render bare, other values as
their repr. -/
def Json.strPy : Json → String
  | .str s => s
  | other => other.reprPy

/-- Day-granular ordinal of a date string starting with `YYYY-MM-DD`
(all date formats tried by `_parse_expiry_date` start this way).  This is
the shallow stand-in for `datetime.strptime` comparison: only the order of
dates matters to the classifier. -/
def parseDateOrdinal (s : String) : Option Int :=
  let cs := s.toList
  match cs with
  | y1 :: y2 :: y3 :: y4 :: sep1 :: m1 :: m2 :: sep2 :: d1 :: d2 :: _ =>
    if y1.isDigit && y2.isDigit && y3.isDigit && y4.isDigit &&
       sep1 = Char.ofNat 45 && m1.isDigit && m2.isDigit &&
       sep2 = Char.ofNat 45 && d1.isDigit && d2.isDigit then
      let digit (c : Char) : Int := Int.ofNat (c.toNat - 48)
      some ((digit y1 * 1000 + digit y2 * 100 + digit y3 * 10 + digit y4) * 10000 +
        (digit m1 * 10 + digit m2) * 100 + (digit d1 * 10 + digit d2))
    else none
  | _ => none

/-- `APIClient._parse_expiry_date` (lines 812–864): scan the known expiry
field names in order; the first string-valued one that parses as a date
decides; a date before `now` (a day ordinal) reports expired. -/
def parse_expiry_date (j : Json) (now : Int) : Bool :=
  let date_fields := ["tokenExpiryDate", "expiryDate", "expiry", "validUntil", "expires"]
  go date_fields j now
where
  go : List String → Json → Int → Bool
    | [], _, _ => false
    | f :: rest, j, now =>
      match j.get f with
      | some (.str date_str) =>
        match parseDateOrdinal date_str with
        | some d => decide (d < now)
        | none => go rest j now
      | _ => go rest j now

/-- `APIClient._parse_inner_error_format` (lines 565–605). -/
def parse_inner_error_format (code : String) (j : Json) (ts : Int) :
    Option CodeResult :=
  match j.get "innererror" with
  | some (.obj innerFields) =>
    let inner : Json := .obj innerFields
    let inner_code := inner.getStr "code"
    let inner_message := (inner.getStr "message").toLower
    let inner_data :=
      match inner.get "data" with
      | some (.arr elems) => elems
      | _ => []
    let expired_codes := ["TokenExpired", "RedeemTokenExpired", "ExpiredToken", "CodeExpired"]
    let expired_keywords := ["expired", "no longer valid", "cannot be redeemed"]
    if expired_codes.contains inner_code ||
        expired_keywords.any (fun k => strContains inner_message k) ||
        inner_data.any (fun d =>
          match d with
          | .str _ => strContains d.reprPy.toLower "expired"
          | .obj _ => strContains d.reprPy.toLower "expired"
          | _ => false) then
      some { code := code, status := .expired, timestamp := ts,
             details := "Код истек: " ++
               (if inner_message = "" then inner_code else inner_message) }
    else
      let invalid_codes := ["InvalidToken", "InvalidRedeemToken", "NotFound", "BadRequest"]
      if invalid_codes.contains inner_code then
        some { code := code, status := .invalid, timestamp := ts,
               details := "Недействительный код: " ++
                 (if inner_message = "" then inner_code else inner_message) }
      else none
  | _ => none

/-- `APIClient._parse_events_format` (lines 607–646): scan `events.cart`
for the first error event with code `InvalidRedeemToken`. -/
def parse_events_format (code : String) (j : Json) (ts : Int) :
    Option CodeResult :=
  match j.get "events" with
  | some events =>
    match events.get "cart" with
    | some (.arr cart_events) => scanEvents code cart_events ts
    | _ => none
  | none => none
where
  scanEvents (code : String) : List Json → Int → Option CodeResult
    | [], _ => none
    | event :: rest, ts =>
      let isErrorEvent :=
        match event.get "type" with
        | some (.str "error") => true
        | _ => false
      if !isErrorEvent then scanEvents code rest ts
      else
        let error_code := event.getStr "code"
        let reason :=
          match event.get "data" with
          | some (.obj dataFields) => (Json.obj dataFields).getStr "reason"
          | _ => ""
        if error_code = "InvalidRedeemToken" then
          if reason = "RedeemTokenExpired" then
            some { code := code, status := .expired, timestamp := ts,
                   details := "Код истек и не может быть использован" }
          else
            some { code := code, status := .invalid, timestamp := ts,
                   details := "Недействительный код: " ++
                     (if reason = "" then "неизвестная причина" else reason) }
        else scanEvents code rest ts

/-- `APIClient._parse_token_state_format` (lines 648–702): the direct
`tokenState` field.  `Active` is `valid` unless an embedded expiry date is
in the past; `Redeemed` is `used`; `Expired`/`Invalid` map directly; any
other value (including non-string values) is an `error`. -/
def parse_token_state_format (code : String) (j : Json) (ts : Int) (now : Int) :
    Option CodeResult :=
  match j.get "tokenState" with
  | none => none
  | some token_state =>
    match token_state with
    | .str s =>
      if s = "Active" then
        if parse_expiry_date j now then
          some { code := code, status := .expired, timestamp := ts,
                 details := "Код истек" }
        else
          some { code := code, status := .valid, timestamp := ts,
                 details := "Код действителен и не использован" }
      else if s = "Redeemed" then
        some { code := code, status := .used, timestamp := ts,
               details := "Код был использован" }
      else if s = "Expired" then
        some { code := code, status := .expired, timestamp := ts,
               details := "Код expired" }
      else if s = "Invalid" then
        some { code := code, status := .invalid, timestamp := ts,
               details := "Код invalid" }
      else
        some { code := code, status := .error, timestamp := ts,
               details := "Неизвестное состояние токена: " ++ s }
    | other =>
      some { code := code, status := .error, timestamp := ts,
             details := "Неизвестное состояние токена: " ++ other.strPy }

/-- The fixed code-to-outcome table of `_parse_error_code_format`. -/
def error_mappings : List (String × (CodeStatus × String)) :=
  [("NotFound", (.invalid, "Код не найден")),
   ("Expired", (.expired, "Код истек")),
   ("TokenExpired", (.expired, "Код истек")),
   ("InvalidToken", (.invalid, "Недействительный код")),
   ("InvalidRedeemToken", (.invalid, "Недействительный код для активации")),
   ("Unauthorized", (.error, "Неавторизован - неверный WLID")),
   ("Forbidden", (.error, "Доступ запрещен")),
   ("BadRequest", (.invalid, "Неверный формат кода")),
   ("InternalServerError", (.error, "Внутренняя ошибка сервера")),
   ("ServiceUnavailable", (.error, "Сервис недоступен")),
   ("TooManyRequests", (.error, "Слишком много запросов"))]

/-- `APIClient._parse_error_code_format` (lines 704–747): a top-level
`code` field mapped through `error_mappings`; unrecognized codes yield an
`error` result carrying the raw code. -/
def parse_error_code_format (code : String) (j : Json) (ts : Int) :
    Option CodeResult :=
  match j.get "code" with
  | none => none
  | some error_code =>
    let error_message := j.getStr "message"
    let codeStr :=
      match error_code with
      | .str s => s
      | _ => ""
    match error_mappings.lookup codeStr with
    | some statusMsg =>
      some { code := code, status := statusMsg.1, timestamp := ts,
             details := if error_message = "" then statusMsg.2 else error_message }
    | none =>
      some { code := code, status := .error, timestamp := ts,
             details := "Неизвестная ошибка API: " ++ error_code.strPy ++
               " - " ++ error_message }

/-- Keyword table of `_parse_message_format`. -/
def message_patterns : List (CodeStatus × List String) :=
  [(.expired, ["expired", "cannot be redeemed", "this token has expired",
     "token is no longer valid", "redemption code has expired",
     "code has expired", "no longer available"]),
   (.used, ["already redeemed", "already used", "previously redeemed",
     "code has been used", "already claimed"]),
   (.invalid, ["invalid code", "not found", "does not exist",
     "invalid format", "malformed", "not valid"])]

/-- `APIClient._parse_message_format` (lines 749–785): match the lowercased
`message`/`description` text against the keyword sets. -/
def parse_message_format (code : String) (j : Json) (ts : Int) :
    Option CodeResult :=
  let message := (j.getStr "message").toLower
  let description := (j.getStr "description").toLower
  let combined_text := (message ++ " " ++ description).trim
  if combined_text = "" then none
  else
    match message_patterns.find? (fun p =>
        p.2.any (fun k => strContains combined_text k)) with
    | some p =>
      some { code := code, status := p.1, timestamp := ts,
             details := "Определено по сообщению: " ++
               (if message = "" then description else message) }
    | none => none

/-- `APIClient._parse_fallback_patterns` (lines 787–810): last-resort
substring scan over the serialized body. -/
def parse_fallback_patterns (code : String) (j : Json) (ts : Int) :
    Option CodeResult :=
  let response_text := j.reprPy.toLower
  if strContains response_text "expired" &&
      (strContains response_text "token" || strContains response_text "code") then
    some { code := code, status := .expired, timestamp := ts,
           details := "Код истек (определено по содержимому ответа)" }
  else if strContains response_text "cannot be redeemed" ||
      strContains response_text "not available" then
    some { code := code, status := .invalid, timestamp := ts,
           details := "Код недоступен для активации" }
  else none

/-- `APIClient._handle_unknown_response` (lines 866–895): an `error` result
summarizing any status/message-like fields found. -/
def handle_unknown_response (code : String) (j : Json) (ts : Int) : CodeResult :=
  let status_fields := ["status", "state", "result", "outcome"]
  let message_fields := ["message", "description", "error", "reason"]
  let statusParts := status_fields.filterMap (fun f =>
    (j.get f).map (fun v => f ++ ": " ++ v.strPy))
  let messageParts := message_fields.filterMap (fun f =>
    (j.get f).map (fun v => f ++ ": " ++ v.strPy))
  let details_parts := statusParts ++ messageParts
  let details :=
    if details_parts.isEmpty then "Неизвестная структура ответа API"
    else String.intercalate "; " details_parts
  { code := code, status := .error, timestamp := ts,
    details := "Не удалось определить статус кода: " ++ details }

/-- `APIClient._parse_api_response` (lines 481–541): the ordered fallback
chain of parsing strategies on an HTTP 200 body; a non-dictionary body is an
immediate `error`. -/
def parse_api_response (code : String) (j : Json) (ts : Int) (now : Int) :
    CodeResult :=
  match j with
  | .obj _ =>
    match parse_inner_error_format code j ts with
    | some r => r
    | none =>
    match parse_events_format code j ts with
    | some r => r
    | none =>
    match parse_token_state_format code j ts now with
    | some r => r
    | none =>
    match parse_error_code_format code j ts with
    | some r => r
    | none =>
    match parse_message_format code j ts with
    | some r => r
    | none =>
    match parse_fallback_patterns code j ts with
    | some r => r
    | none => handle_unknown_response code j ts
  | _ =>
    { code := code, status := .error, timestamp := ts,
      details := "Неверная структура ответа API (не JSON объект)" }

/-- `APIClient._handle_http_status_code` (lines 208–289): status-code
special cases tried before body parsing; `none` means HTTP 200, continue.
`retryAfter` is the parsed integer `Retry-After` header when present —
note it only reaches the human-readable details. -/
def handle_http_status_code (status_code : Nat) (retryAfter : Option Int)
    (code : String) (ts : Int) : Option CodeResult :=
  if status_code = 429 then
    let details :=
      match retryAfter with
      | some n => "Превышен лимит запросов (повтор через " ++ toString n ++ "s)"
      | none => "Превышен лимит запросов"
    some { code := code, status := .rateLimited, timestamp := ts, details := details }
  else if status_code = 401 then
    some { code := code, status := .wlidTokenError, timestamp := ts,
           details := "Недействительный WLID токен (401 Unauthorized)" }
  else if status_code = 403 then
    some { code := code, status := .error, timestamp := ts,
           details := "Доступ запрещен (403 Forbidden)" }
  else if status_code = 404 then
    some { code := code, status := .invalid, timestamp := ts,
           details := "Код не найден (404 Not Found)" }
  else if 500 ≤ status_code ∧ status_code < 600 then
    let details :=
      if status_code = 500 then "Внутренняя ошибка сервера"
      else if status_code = 502 then "Неверный шлюз"
      else if status_code = 503 then "Сервис недоступен"
      else if status_code = 504 then "Таймаут шлюза"
      else "Ошибка сервера (" ++ toString status_code ++ ")"
    some { code := code, status := .error, timestamp := ts, details := details }
  else if status_code ≠ 200 then
    some { code := code, status := .error, timestamp := ts,
           details := "Неожиданный HTTP статус: " ++ toString status_code }
  else none

/-! ## Check client entry (`APIClient.check_code`, lines 335–390) -/

/-- Observable side effects of one `check_code` call that involve the
network or the credential pool. -/
inductive NetEffect where
  | connectivityCheck
  | enforceDelay
  | acquireToken
  | httpRequest
deriving DecidableEq, Repr

/-- The environment a `check_code` call runs against: the client-level
circuit breaker's answer, the connectivity check's answer, and the outcome
and effect trace of the retry-wrapped request path (everything from
`RetryableOperation` on, which only runs when the guards pass). -/
structure CheckEnv where
  breakerOpen : Bool
  connected : Bool
  requestResult : CodeResult
  requestEffects : List NetEffect
deriving Repr

/-- `APIClient.check_code`: codes shorter than 18 characters are rejected
as `invalid` before the circuit breaker, the connectivity check, delay
enforcement, credential acquisition, or any request runs; then the breaker
and connectivity guards short-circuit to `error`; otherwise the
retry-wrapped request path decides.  The second component is the trace of
network/credential effects performed. -/
def check_code (env : CheckEnv) (code : String) (ts : Int) :
    CodeResult × List NetEffect :=
  if code.length < 18 then
    ({ code := code, status := .invalid, timestamp := ts,
       details := "Код слишком короткий (менее 18 символов)" }, [])
  else if env.breakerOpen then
    ({ code := code, status := .error, timestamp := ts,
       details := "Сервис временно недоступен (circuit breaker)" }, [])
  else if !env.connected then
    ({ code := code, status := .error, timestamp := ts,
       details := "Нет подключения к интернету" }, [.connectivityCheck])
  else
    (env.requestResult, .connectivityCheck :: env.requestEffects)

/-! ## Orchestrator (`src/core/code_checker.py`) -/

/-- `CodeChecker.max_retries` (line 59). -/
def maxRetries : Nat := 3

/-- Shared state of a `CodeChecker` instance: session status, pending set,
the two FIFO queues, the collected results, and the per-code retry
counters (`retry_counts.get(code, 0)` is modelled as a total function). -/
structure CheckerState where
  status : SessionStatus
  codes : List String
  pending : Finset String
  codeQueue : List String
  resultQueue : List CodeResult
  results : List CodeResult
  retryCounts : String → Nat

/-- The statuses `APIClient.check_code` can produce (every `CodeResult`
constructed anywhere in `src/data/api_client.py` has one of these, and
carries the checked code as its `code`). -/
def ApiStatus (s : CodeStatus) : Prop :=
  s = .valid ∨ s = .used ∨ s = .invalid ∨ s = .expired ∨
  s = .rateLimited ∨ s = .error ∨ s = .wlidTokenError

/-- A terminal result: not subject to internal retry by the worker loop. -/
def TerminalRes (r : CodeResult) : Prop :=
  r.status ≠ .rateLimited ∧ r.status ≠ .wlidTokenError ∧ r.status ≠ .pending

/-- `min(30, 10 * (retry_count + 1))` — the progressive backoff the worker
thread sleeps before requeueing a rate-limited code
(`src/core/code_checker.py` line 185). -/
def workerWaitTime (retry_count : Nat) : Nat :=
  min 30 (10 * (retry_count + 1))

/-- Worker disposition for a freshly checked result
(`CodeChecker._worker_thread` lines 174–234): `RATE_LIMITED` and
`WLID_TOKEN_ERROR` results are requeued while the retry counter is below
`max_retries` and downgraded to terminal `SKIPPED` results once it is not;
every other result is finalized as-is. -/
inductive WorkerAction where
  | requeue
  | finalize (res : CodeResult)

/-- The terminal `SKIPPED` result built when a rate-limited code exhausts
its retries (`code_checker.py` lines 198–203). -/
def skippedRateLimited (r : CodeResult) : CodeResult :=
  { code := r.code, status := .skipped, timestamp := r.timestamp,
    details := "Код пропущен из-за постоянных лимитов API (попыток: " ++
      toString maxRetries ++ ")" }

/-- The terminal `SKIPPED` result built when a code exhausts its retries on
credential errors (`code_checker.py` lines 226–231). -/
def skippedWlid (r : CodeResult) : CodeResult :=
  { code := r.code, status := .skipped, timestamp := r.timestamp,
    details := "Код пропущен - все WLID токены недействительны (попыток: " ++
      toString maxRetries ++ ")" }

def handleWorkerResult (retry_count : Nat) (r : CodeResult) : WorkerAction :=
  if r.status = .rateLimited then
    if retry_count < maxRetries then .requeue
    else .finalize (skippedRateLimited r)
  else if r.status = .wlidTokenError then
    if retry_count < maxRetries then .requeue
    else .finalize (skippedWlid r)
  else .finalize r

/-- State effect of the worker loop body on a dequeued `code` whose check
returned `r`: requeueing increments the retry counter and puts the code
back on the work queue (the pending set is untouched); finalization pushes
the (possibly downgraded) result onto the result queue. -/
def processResult (s : CheckerState) (code : String) (r : CodeResult) :
    CheckerState :=
  match handleWorkerResult (s.retryCounts code) r with
  | .requeue =>
    { s with
      retryCounts := fun c =>
        if c = code then s.retryCounts code + 1 else s.retryCounts c,
      codeQueue := s.codeQueue ++ [code] }
  | .finalize res => { s with resultQueue := s.resultQueue ++ [res] }

/-- The error result emitted when the worker loop body raises
(`CodeChecker._worker_thread` lines 239–248): it carries the literal code
string `"UNKNOWN"`, not the code being processed. -/
def workerErrorResult (msg : String) (ts : Int) : CodeResult :=
  { code := "UNKNOWN", status := .error, timestamp := ts,
    details := "Worker thread error: " ++ msg }

/-- One iteration of `CodeChecker._result_collector` (lines 250–286) on a
received result: `discard` the result's code from the pending set, append
the result to the session, and finish the session (status `COMPLETED`) the
instant the pending set is empty. -/
def collectResult (s : CheckerState) (r : CodeResult) : CheckerState :=
  let pending1 := s.pending.erase r.code
  { s with
    pending := pending1,
    results := s.results ++ [r],
    status := if pending1 = ∅ then .completed else s.status }

/-- `CodeChecker.check_codes_batch` (lines 81–145): refuse while `RUNNING`;
otherwise reset the session, set the pending set to all codes, zero every
retry counter, clear both queues, enqueue all codes, and run.  The boolean
records whether the call passed its guard. -/
def check_codes_batch (codes : List String) (s : CheckerState) :
    Bool × CheckerState :=
  if s.status = .running then (false, s)
  else
    (true,
      { status := .running,
        codes := codes,
        pending := codes.toFinset,
        codeQueue := codes,
        resultQueue := [],
        results := [],
        retryCounts := fun _ => 0 })

/-- `CodeChecker.pause_checking` (lines 329–341). -/
def pause_checking (s : CheckerState) : Bool × CheckerState :=
  if s.status ≠ .running then (false, s)
  else (true, { s with status := .paused })

/-- `CodeChecker.resume_checking` (lines 343–355). -/
def resume_checking (s : CheckerState) : Bool × CheckerState :=
  if s.status ≠ .paused then (false, s)
  else (true, { s with status := .running })

/-- `CodeChecker.stop_checking` (lines 357–411): succeeds exactly from
`RUNNING`, `PAUSED` or `COMPLETED`; on success `_cleanup_resources` clears
the pending set, the retry counters and both queues, and the status becomes
`STOPPED`. -/
def stop_checking (s : CheckerState) : Bool × CheckerState :=
  if s.status = .running ∨ s.status = .paused ∨ s.status = .completed then
    (true,
      { s with
        status := .stopped,
        pending := ∅,
        retryCounts := fun _ => 0,
        codeQueue := [],
        resultQueue := [] })
  else (false, s)

/-- The state right after `check_codes_batch codes` passes its guard. -/
def initState (codes : List String) : CheckerState :=
  { status := .running,
    codes := codes,
    pending := codes.toFinset,
    codeQueue := codes,
    resultQueue := [],
    results := [],
    retryCounts := fun _ => 0 }

/-- Interleaved small-step semantics of a running session with no external
`stop()`: worker iterations (normal and crashing), collector iterations,
and pause/resume control calls. -/
inductive SessionStep : CheckerState → CheckerState → Prop where
  | worker (s : CheckerState) (code : String) (rest : List String)
      (r : CodeResult) :
      s.codeQueue = code :: rest → r.code = code → ApiStatus r.status →
      SessionStep s (processResult { s with codeQueue := rest } code r)
  | workerCrash (s : CheckerState) (code : String) (rest : List String)
      (msg : String) (ts : Int) :
      s.codeQueue = code :: rest →
      SessionStep s
        { s with codeQueue := rest,
                 resultQueue := s.resultQueue ++ [workerErrorResult msg ts] }
  | collect (s : CheckerState) (r : CodeResult) (rest : List CodeResult) :
      s.resultQueue = r :: rest →
      SessionStep s (collectResult { s with resultQueue := rest } r)
  | collectIdle (s : CheckerState) :
      s.resultQueue = [] → s.pending = ∅ →
      SessionStep s { s with status := .completed }
  | pauseCall (s : CheckerState) :
      s.status = .running → SessionStep s { s with status := .paused }
  | resumeCall (s : CheckerState) :
      s.status = .paused → SessionStep s { s with status := .running }

/-- Reachability from a fresh batch start, absent external `stop()`. -/
def SessionReachable (codes : List String) (s : CheckerState) : Prop :=
  Relation.ReflTransGen SessionStep (initState codes) s

/-- Number of results for a given code in a result list. -/
def resCount (c : String) (rs : List CodeResult) : Nat :=
  (rs.filter (fun r => r.code = c)).length

/-- Number of occurrences of a code in the work queue. -/
def queueCount (c : String) (q : List String) : Nat :=
  (q.filter (fun x => x = c)).length

/-! ## C8: short codes are rejected without any network activity -/

/-- C8: for every code string shorter than 18 characters, `check_code`
returns a `CheckResult` with outcome `invalid` carrying that code, and
performs no network or credential effect whatsoever (no connectivity
check, no delay enforcement, no credential acquisition, no HTTP request). -/
theorem short_code_invalid_no_network (env : CheckEnv) (code : String)
    (ts : Int) (h : code.length < 18) :
    (check_code env code ts).1.status = .invalid ∧
    (check_code env code ts).1.code = code ∧
    (check_code env code ts).2 = [] := by
  simp [check_code, h]

/-- A concrete environment for instantiating `check_code` theorems. -/
def demoEnv : CheckEnv :=
  { breakerOpen := false, connected := true,
    requestResult := { code := "XXXXX-XXXXX-XXXXX-XXXXX-XXXXX", status := .valid },
    requestEffects := [.enforceDelay, .acquireToken, .httpRequest] }

/-- Witness for `short_code_invalid_no_network` at the 3-character code
`"ABC"`. -/
theorem short_code_invalid_no_network_witness :
    "ABC".length < 18 ∧
    ((check_code demoEnv "ABC" 0).1.status = .invalid ∧
     (check_code demoEnv "ABC" 0).1.code = "ABC" ∧
     (check_code demoEnv "ABC" 0).2 = []) :=
  ⟨by decide, short_code_invalid_no_network demoEnv "ABC" 0 (by decide)⟩

/-! ## C10: a worker crash emits an `"UNKNOWN"` result and strands the code -/

/-- C10: the error result emitted when a worker loop body raises carries the
literal code `"UNKNOWN"`; collecting it therefore leaves the pending set
untouched (as long as no session code is literally `"UNKNOWN"`), so the code
that was being processed remains pending. -/
theorem worker_crash_leaves_code_pending (s : CheckerState) (msg : String)
    (ts : Int) (c : String) (hunk : "UNKNOWN" ∉ s.pending)
    (hc : c ∈ s.pending) :
    (workerErrorResult msg ts).code = "UNKNOWN" ∧
    (collectResult s (workerErrorResult msg ts)).pending = s.pending ∧
    c ∈ (collectResult s (workerErrorResult msg ts)).pending := by
  have he : s.pending.erase "UNKNOWN" = s.pending :=
    Finset.erase_eq_of_not_mem hunk
  exact ⟨rfl, by simp [collectResult, workerErrorResult, he],
    by simp [collectResult, workerErrorResult, he, hc]⟩

/-- A running state with one pending code, for witnesses. -/
def demoPendingState : CheckerState :=
  { status := .running, codes := ["CODE1"], pending := {"CODE1"},
    codeQueue := [], resultQueue := [], results := [],
    retryCounts := fun _ => 0 }

/-- Witness for `worker_crash_leaves_code_pending` on a one-code session. -/
theorem worker_crash_leaves_code_pending_witness :
    ("UNKNOWN" ∉ demoPendingState.pending ∧ "CODE1" ∈ demoPendingState.pending) ∧
    ((workerErrorResult "boom" 0).code = "UNKNOWN" ∧
     (collectResult demoPendingState (workerErrorResult "boom" 0)).pending =
       demoPendingState.pending ∧
     "CODE1" ∈ (collectResult demoPendingState (workerErrorResult "boom" 0)).pending) :=
  ⟨⟨by decide, by decide⟩,
   worker_crash_leaves_code_pending demoPendingState "boom" 0 "CODE1"
     (by decide) (by decide)⟩

/-! ## C6: retryable outcomes are requeued, then downgraded to `skipped` -/

/-- C6: for a dequeued code whose check outcome is `rateLimited` or
`wlidTokenError`: while the per-code retry counter is below `maxRetries`
(3), the counter is incremented and the code requeued with the pending set
untouched and nothing finalized; once the counter has reached the maximum,
a terminal result with outcome `skipped` (never `error`) and a non-empty
explanatory detail is finalized instead. -/
theorem retryable_outcome_requeue_or_skip (s : CheckerState) (code : String)
    (r : CodeResult) (hcode : r.code = code)
    (hst : r.status = .rateLimited ∨ r.status = .wlidTokenError) :
    (s.retryCounts code < maxRetries →
      (processResult s code r).pending = s.pending ∧
      (processResult s code r).retryCounts code = s.retryCounts code + 1 ∧
      (processResult s code r).codeQueue = s.codeQueue ++ [code] ∧
      (processResult s code r).resultQueue = s.resultQueue ∧
      (processResult s code r).results = s.results) ∧
    (maxRetries ≤ s.retryCounts code →
      ∃ res,
        (processResult s code r).resultQueue = s.resultQueue ++ [res] ∧
        res.code = code ∧ res.status = .skipped ∧ res.status ≠ .error ∧
        res.details ≠ "" ∧
        (processResult s code r).pending = s.pending ∧
        (processResult s code r).codeQueue = s.codeQueue) := by
  constructor
  · intro hlt
    rcases hst with h | h <;>
      simp [processResult, handleWorkerResult, h, hlt]
  · intro hge
    have hnlt : ¬ s.retryCounts code < maxRetries := Nat.not_lt.mpr hge
    rcases hst with h | h
    · exact ⟨skippedRateLimited r,
        by simp [processResult, handleWorkerResult, h, hnlt],
        by simp [skippedRateLimited, hcode], rfl,
        by simp only [skippedRateLimited]; decide,
        by simp only [skippedRateLimited]; decide,
        by simp [processResult, handleWorkerResult, h, hnlt],
        by simp [processResult, handleWorkerResult, h, hnlt]⟩
    · exact ⟨skippedWlid r,
        by simp [processResult, handleWorkerResult, h, hnlt],
        by simp [skippedWlid, hcode], rfl,
        by simp only [skippedWlid]; decide,
        by simp only [skippedWlid]; decide,
        by simp [processResult, handleWorkerResult, h, hnlt],
        by simp [processResult, handleWorkerResult, h, hnlt]⟩

/-- Witness for `retryable_outcome_requeue_or_skip`: a rate-limited result
for a fresh code is requeued, and for an exhausted code is skipped. -/
theorem retryable_outcome_requeue_or_skip_witness :
    (({ code := "CODE1", status := .rateLimited } : CodeResult).code = "CODE1" ∧
     (({ code := "CODE1", status := .rateLimited } : CodeResult).status = .rateLimited ∨
      ({ code := "CODE1", status := .rateLimited } : CodeResult).status = .wlidTokenError)) ∧
    (demoPendingState.retryCounts "CODE1" < maxRetries →
      (processResult demoPendingState "CODE1"
          { code := "CODE1", status := .rateLimited }).pending =
        demoPendingState.pending ∧
      (processResult demoPendingState "CODE1"
          { code := "CODE1", status := .rateLimited }).retryCounts "CODE1" =
        demoPendingState.retryCounts "CODE1" + 1 ∧
      (processResult demoPendingState "CODE1"
          { code := "CODE1", status := .rateLimited }).codeQueue =
        demoPendingState.codeQueue ++ ["CODE1"] ∧
      (processResult demoPendingState "CODE1"
          { code := "CODE1", status := .rateLimited }).resultQueue =
        demoPendingState.resultQueue ∧
      (processResult demoPendingState "CODE1"
          { code := "CODE1", status := .rateLimited }).results =
        demoPendingState.results) :=
  ⟨⟨rfl, Or.inl rfl⟩,
   (retryable_outcome_requeue_or_skip demoPendingState "CODE1"
     { code := "CODE1", status := .rateLimited } rfl (Or.inl rfl)).1⟩

/-! ## C2: the credential-health invariant and `acquire` -/

/-- C2 counterexample: three `mark_error` calls drive `error_count` to 3
and invalidate the token, but a subsequent `test_wlid_tokens` success
(HTTP 200) re-validates it without resetting `error_count` — so after this
sequence of program operations the credential has `errorCount ≥ 3` yet is
marked valid, contradicting the claimed invariant. -/
theorem token_revalidated_with_errors_counterexample :
    3 ≤ ((((freshToken "T").mark_error.mark_error.mark_error).test_update 200).error_count) ∧
    ((((freshToken "T").mark_error.mark_error.mark_error).test_update 200).is_valid = true) := by
  decide

/-- Invariant `errorCount ≥ 3 ⇒ ¬valid` is (re-)established by every
`mark_error` call. -/
theorem mark_error_invariant (t : WLIDToken) : tokenInvariant t.mark_error := by
  unfold tokenInvariant WLIDToken.mark_error
  by_cases hc : 3 ≤ t.error_count + 1 <;> simp [hc]

/-- C2 amended: the invariant `errorCount ≥ 3 ⇒ valid == false` is
preserved by every sequence of the checking engine's own credential
mutations (`mark_error` / `mark_used` / `mark_rate_limited`), and
`get_available_wlid` never returns a credential that is invalid or
currently rate-limited.  (The invariant does not survive
`test_wlid_tokens`, which re-validates on HTTP 200/404 without resetting
`error_count` — see the counterexample.) -/
theorem token_invariant_engine_ops_and_acquire :
    (∀ (t : WLIDToken) (ops : List EngineOp),
      tokenInvariant t → tokenInvariant (applyEngineOps ops t)) ∧
    (∀ (now : Int) (pick : Nat) (tokens : List WLIDToken) (t : WLIDToken),
      get_available_wlid now pick tokens = some t →
      t.is_valid = true ∧ t.is_rate_limited now = false) := by
  constructor
  · intro t ops
    induction ops generalizing t with
    | nil => exact fun h => h
    | cons op rest ih =>
      intro h
      apply ih
      cases op with
      | markError => exact mark_error_invariant t
      | markUsed now =>
        intro h3
        exact h h3
      | markRateLimited now d =>
        intro h3
        exact h h3
  · intro now pick tokens t h
    suffices hmem : t ∈ tokens.filter (fun x => x.is_available now) by
      have hav := (List.mem_filter.mp hmem).2
      simp only [WLIDToken.is_available, Bool.and_eq_true, Bool.not_eq_true'] at hav
      exact ⟨hav.1, hav.2⟩
    unfold get_available_wlid at h
    simp only at h
    split at h
    · exact absurd h (by simp)
    · split at h
      · exact List.get?_mem h
      · have := List.get?_mem h
        exact (List.mem_filter.mp this).1

/-- Witness for `token_invariant_engine_ops_and_acquire`: a fresh token
after one `mark_error` keeps the invariant, and a pool of one fresh token
yields that token from `get_available_wlid` — valid and not rate limited. -/
theorem token_invariant_engine_ops_and_acquire_witness :
    tokenInvariant (applyEngineOps [.markError] (freshToken "T")) ∧
    ((freshToken "T").is_valid = true ∧
      (freshToken "T").is_rate_limited 0 = false) :=
  ⟨token_invariant_engine_ops_and_acquire.1 (freshToken "T") [.markError] (by decide),
   token_invariant_engine_ops_and_acquire.2 0 0 [freshToken "T"] (freshToken "T")
     (by decide)⟩

/-! ## C3: the `Retry-After` header is not a floor on the waited delay -/

/-- C3 counterexample: an HTTP 429 response carrying `Retry-After: 25` is
classified `rateLimited`, but the worker waits only
`min(30, 10·(0+1)) = 10` seconds before the code's next attempt — less
than the 25 seconds the header demanded — and the `calculate_delay`
Retry-After floor can never fire because `extract_retry_after` returns
`none` on every error.  The claimed "delay ≥ Retry-After" is false at
`Retry-After = 25`. -/
theorem retry_after_floor_counterexample :
    ((handle_http_status_code 429 (some 25) "XXXXX-XXXXX-XXXXX-XXXXX-XXXXX" 0).map
        CodeResult.status = some .rateLimited) ∧
    workerWaitTime 0 = 10 ∧ (10 : Nat) < 25 ∧
    extract_retry_after { message := "429 rate limited" } = none := by
  decide

/-- C3 amended: the `Retry-After` value of a 429 response reaches only the
human-readable details of the `rateLimited` result; the delay the worker
actually waits before the code's next attempt is `min(30, 10·(retry+1))`
seconds — between 10 and 30, independent of the header — and the
RetryManager's Retry-After floor is dead code: `extract_retry_after` is
constantly `none`, so `calculate_delay` always equals the plain jittered
backoff of the error class. -/
theorem retry_after_only_in_details :
    (∀ (n : Option Int) (code : String) (ts : Int),
      (handle_http_status_code 429 n code ts).map CodeResult.status =
        some .rateLimited) ∧
    (∀ rc, workerWaitTime rc = min 30 (10 * (rc + 1)) ∧
      10 ≤ workerWaitTime rc ∧ workerWaitTime rc ≤ 30) ∧
    (∀ e, extract_retry_after e = none) ∧
    (∀ cfg e sc a u, calculate_delay cfg e sc a u =
      calculate_delay_core cfg (classify_error e sc) a u) := by
  refine ⟨?_, ?_, fun _ => rfl, ?_⟩
  · intro n code ts
    cases n <;> simp [handle_http_status_code]
  · intro rc
    refine ⟨rfl, ?_, ?_⟩ <;> (unfold workerWaitTime; omega)
  · intro cfg e sc a u
    unfold calculate_delay extract_retry_after
    by_cases h : classify_error e sc = .rateLimited <;> simp [h]

/-! ## C5: backoff formula, floor, cap and monotonicity -/

/-- C5 counterexample: with the default configuration and the rate-limit
class (base 2, cap 120, factor 2, jitter ±30 %), attempt 6 with jitter draw
`u = 1` yields a delay of 156 s — exceeding the class's 120 s cap — while
attempt 7 with `u = -1` yields 84 s, so the delay is neither bounded by the
cap nor monotonically non-decreasing in the attempt number. -/
theorem delay_cap_and_monotonicity_counterexample :
    preJitterDelay defaultRetryConfig .rateLimited 6 = 120 ∧
    calculate_delay_core defaultRetryConfig .rateLimited 6 1 = 156 ∧
    calculate_delay_core defaultRetryConfig .rateLimited 7 (-1) = 84 ∧
    (120 : ℚ) < 156 ∧ (84 : ℚ) < 156 := by
  refine ⟨?_, ?_, ?_, by norm_num, by norm_num⟩ <;>
    norm_num [preJitterDelay, calculate_delay_core,
      get_delay_config_for_reason, defaultRetryConfig, min_def, max_def]

/-- C5 amended: for a fixed error class the delay equals
`max(0.1, min(base × multiplier^attempt, cap) × (1 + jitter·u))` with
`u ∈ [-1, 1]`; the pre-jitter delay is monotonically non-decreasing in the
attempt number and bounded by the class's cap; the final delay is never
below 0.1 s and never exceeds `max(0.1, (1 + jitter) × cap)` — i.e. it can
overshoot the cap by up to the jitter fraction, and jitter breaks exact
monotonicity (see the counterexample). -/
theorem calculate_delay_core_amended (cfg : RetryConfig) (reason : RetryReason)
    (a b : Nat) (u : ℚ)
    (hbase : 0 ≤ (get_delay_config_for_reason cfg reason).1)
    (hcap : 0 ≤ (get_delay_config_for_reason cfg reason).2.1)
    (hfac : 1 ≤ (get_delay_config_for_reason cfg reason).2.2)
    (hjit : 0 ≤ cfg.jitter_factor)
    (hu : |u| ≤ 1) (hab : a ≤ b) :
    calculate_delay_core cfg reason a u =
      max 0.1 (preJitterDelay cfg reason a * (1 + cfg.jitter_factor * u)) ∧
    preJitterDelay cfg reason a ≤ preJitterDelay cfg reason b ∧
    preJitterDelay cfg reason a ≤ (get_delay_config_for_reason cfg reason).2.1 ∧
    0.1 ≤ calculate_delay_core cfg reason a u ∧
    calculate_delay_core cfg reason a u ≤
      max 0.1 ((1 + cfg.jitter_factor) * (get_delay_config_for_reason cfg reason).2.1) := by
  obtain ⟨hum, hup⟩ := abs_le.mp hu
  have hfac0 : (0 : ℚ) ≤ (get_delay_config_for_reason cfg reason).2.2 :=
    le_trans zero_le_one hfac
  have hd0 : 0 ≤ preJitterDelay cfg reason a :=
    le_min (mul_nonneg hbase (pow_nonneg hfac0 a)) hcap
  have heq : calculate_delay_core cfg reason a u =
      max 0.1 (preJitterDelay cfg reason a * (1 + cfg.jitter_factor * u)) := by
    unfold calculate_delay_core preJitterDelay
    ring_nf
  refine ⟨heq, ?_, min_le_right _ _, ?_, ?_⟩
  · exact min_le_min
      (mul_le_mul_of_nonneg_left (pow_le_pow_right₀ hfac hab) hbase) le_rfl
  · rw [heq]; exact le_max_left _ _
  · rw [heq]
    refine max_le_max le_rfl ?_
    calc preJitterDelay cfg reason a * (1 + cfg.jitter_factor * u)
        ≤ preJitterDelay cfg reason a * (1 + cfg.jitter_factor) := by
          refine mul_le_mul_of_nonneg_left ?_ hd0
          have : cfg.jitter_factor * u ≤ cfg.jitter_factor * 1 :=
            mul_le_mul_of_nonneg_left hup hjit
          linarith
      _ ≤ (get_delay_config_for_reason cfg reason).2.1 * (1 + cfg.jitter_factor) := by
          refine mul_le_mul_of_nonneg_right (min_le_right _ _) ?_
          linarith
      _ = (1 + cfg.jitter_factor) * (get_delay_config_for_reason cfg reason).2.1 := by
          ring

/-- Witness for `calculate_delay_core_amended` at the default configuration,
rate-limit class, attempts 0 ≤ 1, jitter draw 0. -/
theorem calculate_delay_core_amended_witness :
    (0 ≤ (get_delay_config_for_reason defaultRetryConfig .rateLimited).1 ∧
     |(0 : ℚ)| ≤ 1 ∧ (0 : Nat) ≤ 1) ∧
    (calculate_delay_core defaultRetryConfig .rateLimited 0 0 =
      max 0.1 (preJitterDelay defaultRetryConfig .rateLimited 0 *
        (1 + defaultRetryConfig.jitter_factor * 0)) ∧
     preJitterDelay defaultRetryConfig .rateLimited 0 ≤
       preJitterDelay defaultRetryConfig .rateLimited 1 ∧
     preJitterDelay defaultRetryConfig .rateLimited 0 ≤
       (get_delay_config_for_reason defaultRetryConfig .rateLimited).2.1 ∧
     0.1 ≤ calculate_delay_core defaultRetryConfig .rateLimited 0 0 ∧
     calculate_delay_core defaultRetryConfig .rateLimited 0 0 ≤
       max 0.1 ((1 + defaultRetryConfig.jitter_factor) *
         (get_delay_config_for_reason defaultRetryConfig .rateLimited).2.1)) :=
  ⟨⟨by norm_num [get_delay_config_for_reason, defaultRetryConfig], by norm_num,
    by norm_num⟩,
   calculate_delay_core_amended defaultRetryConfig .rateLimited 0 1 0
     (by norm_num [get_delay_config_for_reason, defaultRetryConfig])
     (by norm_num [get_delay_config_for_reason, defaultRetryConfig])
     (by norm_num [get_delay_config_for_reason, defaultRetryConfig])
     (by norm_num [defaultRetryConfig])
     (by norm_num) (by norm_num)⟩

/-! ## C4: circuit-breaker cool-down window -/

/-- C4: once the consecutive-failure counter has reached the threshold (10)
and the breaker is queried with no reset time pending, the open timestamp
is fixed at that trip instant — the reset time becomes `t0 + 300` — and the
query reports open; every `should_retry` call strictly inside the
300-second window returns false and leaves the state unchanged; a query at
or after `t0 + 300` closes the breaker (failures reset to 0), after which
`should_retry` returns true again for any retryable error class below its
attempt ceiling. -/
theorem circuit_breaker_cooldown (cfg : RetryConfig) (s : RMState) (t0 : ℚ)
    (hth : 10 ≤ s.failures) (hrt : s.resetTime = none) :
    is_circuit_breaker_open t0 s =
      (true, { s with resetTime := some (t0 + 300) }) ∧
    (∀ t, t < t0 + 300 →
      is_circuit_breaker_open t { s with resetTime := some (t0 + 300) } =
        (true, { s with resetTime := some (t0 + 300) })) ∧
    (∀ t attempts e sc, t < t0 + 300 →
      should_retry cfg t { s with resetTime := some (t0 + 300) } attempts e sc =
        (false, { s with resetTime := some (t0 + 300) })) ∧
    (∀ t, t0 + 300 ≤ t →
      is_circuit_breaker_open t { s with resetTime := some (t0 + 300) } =
        (false, { failures := 0, resetTime := none })) ∧
    (∀ t attempts e sc, t0 + 300 ≤ t →
      attempts < get_max_attempts_for_reason cfg (classify_error e sc) →
      ¬(classify_error e sc = .unknownError ∧
        (sc = some 400 ∨ sc = some 401 ∨ sc = some 403 ∨ sc = some 404)) →
      should_retry cfg t { s with resetTime := some (t0 + 300) } attempts e sc =
        (true, { failures := 0, resetTime := none })) := by
  have hn10 : ¬ s.failures < 10 := by omega
  have hopen : ∀ t, t < t0 + 300 →
      is_circuit_breaker_open t { s with resetTime := some (t0 + 300) } =
        (true, { s with resetTime := some (t0 + 300) }) := by
    intro t ht
    have hnle : ¬ t0 + 300 ≤ t := by linarith
    simp [is_circuit_breaker_open, hn10, hnle]
  have hclosed : ∀ t, t0 + 300 ≤ t →
      is_circuit_breaker_open t { s with resetTime := some (t0 + 300) } =
        (false, { failures := 0, resetTime := none }) := by
    intro t ht
    simp [is_circuit_breaker_open, hn10, ht]
  refine ⟨?_, hopen, ?_, hclosed, ?_⟩
  · simp [is_circuit_breaker_open, hn10, hrt]
  · intro t attempts e sc ht
    simp [should_retry, hopen t ht]
  · intro t attempts e sc ht hatt hretry
    have hnmax : ¬ get_max_attempts_for_reason cfg (classify_error e sc) ≤ attempts := by
      omega
    simp [should_retry, hclosed t ht, hnmax, hretry]

/-- Witness for `circuit_breaker_cooldown`: a manager with exactly 10
consecutive failures and no pending reset time, queried at time 0. -/
theorem circuit_breaker_cooldown_witness :
    ((10 : Nat) ≤ (⟨10, none⟩ : RMState).failures ∧
      (⟨10, none⟩ : RMState).resetTime = none) ∧
    is_circuit_breaker_open 0 (⟨10, none⟩ : RMState) =
      (true, ⟨10, some (0 + 300)⟩) :=
  ⟨⟨by decide, rfl⟩,
   (circuit_breaker_cooldown defaultRetryConfig ⟨10, none⟩ 0 (by decide) rfl).1⟩

/-! ## C9: the orchestrator's control-call guards -/

/-- A paused session state for the C9 counterexample. -/
def demoPausedState : CheckerState :=
  { demoPendingState with status := .paused }

/-- A completed session state for the C9 counterexample. -/
def demoCompletedState : CheckerState :=
  { demoPendingState with status := .completed, pending := ∅ }

/-- C9 counterexample: `check_codes_batch` (start) succeeds from `PAUSED` —
its guard refuses only `RUNNING` — although `PAUSED` is neither `Idle` nor
a terminal state, so "start succeeds only from Idle or a prior terminal
state" is false; moreover `stop_checking` also succeeds from `COMPLETED`,
which is not an active state. -/
theorem start_guard_counterexample :
    (check_codes_batch ["CODE1"] demoPausedState).1 = true ∧
    demoPausedState.status ≠ .idle ∧
    demoPausedState.status ≠ .stopped ∧
    demoPausedState.status ≠ .completed ∧
    (check_codes_batch ["CODE1"] demoPausedState).2.status = .running ∧
    (stop_checking demoCompletedState).1 = true ∧
    demoCompletedState.status ≠ .running ∧
    demoCompletedState.status ≠ .paused := by
  refine ⟨?_, by decide, by decide, by decide, ?_, ?_, by decide, by decide⟩ <;>
    simp [check_codes_batch, stop_checking, demoPausedState,
      demoCompletedState, demoPendingState]

/-- C9 amended: `check_codes_batch` succeeds exactly when the status is not
`RUNNING` (in particular also from `PAUSED`), and on success resets the
session — status `RUNNING`, pending set = all codes, every retry counter
zero, empty result list; `pause_checking` succeeds exactly from `RUNNING`;
`resume_checking` exactly from `PAUSED`; `stop_checking` exactly from
`RUNNING`, `PAUSED` or `COMPLETED` (so also from the terminal `COMPLETED`,
not only active states); every guarded-out call leaves the state
unchanged. -/
theorem control_guards_amended (s : CheckerState) (codes : List String) :
    ((check_codes_batch codes s).1 = true ↔ s.status ≠ .running) ∧
    ((check_codes_batch codes s).1 = false → (check_codes_batch codes s).2 = s) ∧
    ((check_codes_batch codes s).1 = true →
      (check_codes_batch codes s).2.status = .running ∧
      (check_codes_batch codes s).2.pending = codes.toFinset ∧
      (∀ c, (check_codes_batch codes s).2.retryCounts c = 0) ∧
      (check_codes_batch codes s).2.results = [] ∧
      (check_codes_batch codes s).2.codeQueue = codes) ∧
    ((pause_checking s).1 = true ↔ s.status = .running) ∧
    ((pause_checking s).1 = false → (pause_checking s).2 = s) ∧
    ((pause_checking s).1 = true → (pause_checking s).2.status = .paused) ∧
    ((resume_checking s).1 = true ↔ s.status = .paused) ∧
    ((resume_checking s).1 = false → (resume_checking s).2 = s) ∧
    ((resume_checking s).1 = true → (resume_checking s).2.status = .running) ∧
    ((stop_checking s).1 = true ↔
      (s.status = .running ∨ s.status = .paused ∨ s.status = .completed)) ∧
    ((stop_checking s).1 = false → (stop_checking s).2 = s) ∧
    ((stop_checking s).1 = true →
      (stop_checking s).2.status = .stopped ∧
      (stop_checking s).2.pending = ∅ ∧
      (stop_checking s).2.codeQueue = [] ∧
      (stop_checking s).2.resultQueue = [] ∧
      (∀ c, (stop_checking s).2.retryCounts c = 0)) := by
  refine ⟨?_, ?_, ?_, ?_, ?_, ?_, ?_, ?_, ?_, ?_, ?_, ?_⟩ <;>
    first
    | (unfold check_codes_batch
       by_cases h : s.status = .running <;> simp [h])
    | (unfold pause_checking
       by_cases h : s.status = .running <;> simp [h])
    | (unfold resume_checking
       by_cases h : s.status = .paused <;> simp [h])
    | (unfold stop_checking
       by_cases h : s.status = .running ∨ s.status = .paused ∨ s.status = .completed <;>
         simp [h])

/-- Witness for `control_guards_amended`: from the paused demo state, pause
is refused and leaves the state unchanged, while start succeeds. -/
theorem control_guards_amended_witness :
    ((pause_checking demoPausedState).1 = false →
      (pause_checking demoPausedState).2 = demoPausedState) ∧
    ((check_codes_batch ["CODE1"] demoPausedState).1 = true ↔
      demoPausedState.status ≠ .running) :=
  ⟨(control_guards_amended demoPausedState ["CODE1"]).2.2.2.2.1,
   (control_guards_amended demoPausedState ["CODE1"]).1⟩

/-! ## C7: classifier scenarios for `tokenState` bodies -/

/-- C7: an HTTP 200 body `{"tokenState": "Active"}` with no expiry field is
classified `valid`; `{"tokenState": "Redeemed"}` is `used`;
`{"code": "NotFound"}` is `invalid`; and a body whose `tokenState` is any
string outside {Active, Redeemed, Expired, Invalid} is `error`. -/
theorem token_state_classification (code : String) (ts now : Int) :
    (parse_api_response code (.obj [("tokenState", .str "Active")]) ts now).status = .valid ∧
    (parse_api_response code (.obj [("tokenState", .str "Redeemed")]) ts now).status = .used ∧
    (parse_api_response code (.obj [("code", .str "NotFound")]) ts now).status = .invalid ∧
    (∀ v : String, v ≠ "Active" → v ≠ "Redeemed" → v ≠ "Expired" → v ≠ "Invalid" →
      (parse_api_response code (.obj [("tokenState", .str v)]) ts now).status = .error) := by
  refine ⟨rfl, rfl, rfl, ?_⟩
  intro v h1 h2 h3 h4
  have h5 : parse_inner_error_format code (.obj [("tokenState", .str v)]) ts = none := rfl
  have h6 : parse_events_format code (.obj [("tokenState", .str v)]) ts = none := rfl
  have h7 : (Json.obj [("tokenState", Json.str v)]).get "tokenState" =
      some (.str v) := rfl
  unfold parse_api_response
  rw [h5, h6]
  unfold parse_token_state_format
  rw [h7]
  simp [h1, h2, h3, h4]

/-- Witness for `token_state_classification`: the unknown `tokenState`
value `"Weird"` is classified `error`. -/
theorem token_state_classification_witness :
    ("Weird" ≠ "Active" ∧ "Weird" ≠ "Redeemed" ∧
     "Weird" ≠ "Expired" ∧ "Weird" ≠ "Invalid") ∧
    (parse_api_response "CODE" (.obj [("tokenState", .str "Weird")]) 0 0).status = .error :=
  ⟨⟨by decide, by decide, by decide, by decide⟩,
   (token_state_classification "CODE" 0 0).2.2.2 "Weird"
     (by decide) (by decide) (by decide) (by decide)⟩

/-! ## C1: the pending-set invariant and session completion -/

lemma queueCount_cons (c x : String) (q : List String) :
    queueCount c (x :: q) = (if x = c then 1 else 0) + queueCount c q := by
  simp only [queueCount, List.filter_cons]
  by_cases h : x = c
  · simp [h]; omega
  · simp [h]

lemma queueCount_append (c : String) (q1 q2 : List String) :
    queueCount c (q1 ++ q2) = queueCount c q1 + queueCount c q2 := by
  simp [queueCount, List.filter_append]

lemma queueCount_nil (c : String) : queueCount c [] = 0 := rfl

lemma queueCount_eq_zero_of_not_mem {c : String} {q : List String}
    (h : c ∉ q) : queueCount c q = 0 := by
  rw [queueCount, List.length_eq_zero, List.filter_eq_nil_iff]
  intro a ha
  simp only [decide_eq_true_eq]
  rintro rfl
  exact h ha

lemma queueCount_le_one_of_nodup {q : List String} (hnd : q.Nodup)
    (c : String) : queueCount c q ≤ 1 := by
  induction q with
  | nil => simp [queueCount_nil]
  | cons x t ih =>
    obtain ⟨hx, ht⟩ := List.nodup_cons.mp hnd
    rw [queueCount_cons]
    by_cases h : x = c
    · subst h
      rw [queueCount_eq_zero_of_not_mem hx]
      simp
    · simpa [h] using ih ht

lemma resCount_cons (c : String) (r : CodeResult) (rs : List CodeResult) :
    resCount c (r :: rs) = (if r.code = c then 1 else 0) + resCount c rs := by
  simp only [resCount, List.filter_cons]
  by_cases h : r.code = c
  · simp [h]; omega
  · simp [h]

lemma resCount_append (c : String) (rs1 rs2 : List CodeResult) :
    resCount c (rs1 ++ rs2) = resCount c rs1 + resCount c rs2 := by
  simp [resCount, List.filter_append]

lemma resCount_nil (c : String) : resCount c [] = 0 := rfl

lemma resCount_singleton (c : String) (r : CodeResult) :
    resCount c [r] = if r.code = c then 1 else 0 := by
  rw [resCount_cons, resCount_nil, Nat.add_zero]

lemma resCount_eq_zero_iff (c : String) (rs : List CodeResult) :
    resCount c rs = 0 ↔ ∀ r ∈ rs, r.code ≠ c := by
  rw [resCount, List.length_eq_zero, List.filter_eq_nil_iff]
  simp

/-- The inductive invariant of a running session: a completed session has an
empty pending set; a code is pending exactly while no result for it has
been collected; each session code occurs at most once across the work
queue, the result queue and the collected results; queued codes are session
codes; and every produced result is terminal and belongs to a session code
or carries `"UNKNOWN"`. -/
structure SessionInvS (codes : List String) (s : CheckerState) : Prop where
  completed_empty : s.status = .completed → s.pending = ∅
  mem_pending : ∀ c, c ∈ s.pending ↔ c ∈ codes ∧ resCount c s.results = 0
  mult : ∀ c, c ∈ codes →
    queueCount c s.codeQueue + resCount c s.resultQueue + resCount c s.results ≤ 1
  queue_codes : ∀ c, c ∈ s.codeQueue → c ∈ codes
  rq_ok : ∀ r, r ∈ s.resultQueue →
    (r.code ∈ codes ∨ r.code = "UNKNOWN") ∧ TerminalRes r
  rs_ok : ∀ r, r ∈ s.results →
    (r.code ∈ codes ∨ r.code = "UNKNOWN") ∧ TerminalRes r

lemma sessionInv_init (codes : List String) (hnd : codes.Nodup) :
    SessionInvS codes (initState codes) := by
  constructor
  · intro hc; simp [initState] at hc
  · intro c; simp [initState, resCount_nil, List.mem_toFinset]
  · intro c _
    simpa [initState, resCount_nil] using queueCount_le_one_of_nodup hnd c
  · intro c hc; simpa [initState] using hc
  · intro r hr; simp [initState] at hr
  · intro r hr; simp [initState] at hr

/-- Disposition of the worker loop: a checked result is either requeued or
finalized as a terminal result carrying the same code. -/
lemma handleWorkerResult_spec (rc : Nat) (r : CodeResult)
    (hapi : ApiStatus r.status) :
    handleWorkerResult rc r = .requeue ∨
    ∃ res, handleWorkerResult rc r = .finalize res ∧ res.code = r.code ∧
      TerminalRes res := by
  unfold handleWorkerResult
  by_cases h1 : r.status = .rateLimited
  · by_cases h2 : rc < maxRetries
    · left; simp [h1, h2]
    · right
      exact ⟨skippedRateLimited r, by simp [h1, h2], rfl,
        by simp only [TerminalRes, skippedRateLimited]; exact ⟨by decide, by decide, by decide⟩⟩
  · by_cases h2 : r.status = .wlidTokenError
    · by_cases h3 : rc < maxRetries
      · left; simp [h1, h2, h3]
      · right
        exact ⟨skippedWlid r, by simp [h1, h2, h3], rfl,
          by simp only [TerminalRes, skippedWlid]; exact ⟨by decide, by decide, by decide⟩⟩
    · right
      refine ⟨r, by simp [h1, h2], rfl, h1, h2, ?_⟩
      rcases hapi with h | h | h | h | h | h | h <;> simp [h]

lemma processResult_requeue (s : CheckerState) (code : String) (r : CodeResult)
    (hw : handleWorkerResult (s.retryCounts code) r = .requeue) :
    processResult s code r =
      { s with
        retryCounts := fun c =>
          if c = code then s.retryCounts code + 1 else s.retryCounts c,
        codeQueue := s.codeQueue ++ [code] } := by
  unfold processResult
  rw [hw]

lemma processResult_finalize (s : CheckerState) (code : String)
    (r res : CodeResult)
    (hw : handleWorkerResult (s.retryCounts code) r = .finalize res) :
    processResult s code r = { s with resultQueue := s.resultQueue ++ [res] } := by
  unfold processResult
  rw [hw]

lemma sessionInv_step (codes : List String) (hU : "UNKNOWN" ∉ codes)
    {s s2 : CheckerState} (hstep : SessionStep s s2)
    (h : SessionInvS codes s) : SessionInvS codes s2 := by
  cases hstep with
  | worker code rest r hq hrc hapi =>
    have hcode : code ∈ codes :=
      h.queue_codes code (by rw [hq]; exact List.mem_cons_self _ _)
    rcases handleWorkerResult_spec (s.retryCounts code) r hapi with
      hw | ⟨res, hw, hcres, hterm⟩
    · rw [processResult_requeue { s with codeQueue := rest } code r hw]
      constructor
      · exact h.completed_empty
      · exact h.mem_pending
      · intro c hc
        have hm := h.mult c hc
        rw [hq, queueCount_cons] at hm
        simp only [queueCount_append, queueCount_cons, queueCount_nil]
        by_cases hcc : code = c <;> simp [hcc] at hm ⊢ <;> omega
      · intro c hcq
        simp only [List.mem_append, List.mem_singleton] at hcq
        rcases hcq with hcq | rfl
        · exact h.queue_codes c (by rw [hq]; exact List.mem_cons_of_mem _ hcq)
        · exact hcode
      · exact h.rq_ok
      · exact h.rs_ok
    · rw [processResult_finalize { s with codeQueue := rest } code r res hw]
      constructor
      · exact h.completed_empty
      · exact h.mem_pending
      · intro c hc
        have hm := h.mult c hc
        rw [hq, queueCount_cons] at hm
        rw [resCount_append, resCount_singleton, hcres, hrc]
        by_cases hcc : code = c <;> simp [hcc] at hm ⊢ <;> omega
      · intro c hcq
        exact h.queue_codes c (by rw [hq]; exact List.mem_cons_of_mem _ hcq)
      · intro r2 hr2
        simp only [List.mem_append, List.mem_singleton] at hr2
        rcases hr2 with hr2 | rfl
        · exact h.rq_ok r2 hr2
        · exact ⟨Or.inl (by rw [hcres, hrc]; exact hcode), hterm⟩
      · exact h.rs_ok
  | workerCrash code rest msg ts hq =>
    constructor
    · exact h.completed_empty
    · exact h.mem_pending
    · intro c hc
      have hm := h.mult c hc
      rw [hq, queueCount_cons] at hm
      have hne : ¬ ((workerErrorResult msg ts).code = c) := by
        simp only [workerErrorResult]
        rintro rfl
        exact hU hc
      rw [resCount_append, resCount_singleton]
      simp only [hne, if_false]
      by_cases hcc : code = c <;> simp [hcc] at hm <;> omega
    · intro c hcq
      exact h.queue_codes c (by rw [hq]; exact List.mem_cons_of_mem _ hcq)
    · intro r2 hr2
      simp only [List.mem_append, List.mem_singleton] at hr2
      rcases hr2 with hr2 | rfl
      · exact h.rq_ok r2 hr2
      · exact ⟨Or.inr rfl,
          by simp only [TerminalRes, workerErrorResult]; exact ⟨by decide, by decide, by decide⟩⟩
    · exact h.rs_ok
  | collect r rest hq =>
    have hrq := h.rq_ok r (by rw [hq]; exact List.mem_cons_self _ _)
    constructor
    · intro hc2
      by_cases hp : s.pending.erase r.code = ∅
      · exact hp
      · have hcs : s.status = .completed := by
          simpa [collectResult, hp] using hc2
        have hpe : s.pending = ∅ := h.completed_empty hcs
        rw [hpe, Finset.erase_empty] at hp
        exact absurd rfl hp
    · intro c
      show c ∈ s.pending.erase r.code ↔
        c ∈ codes ∧ resCount c (s.results ++ [r]) = 0
      rw [Finset.mem_erase, resCount_append, resCount_singleton]
      by_cases hcc : r.code = c
      · subst hcc
        simp [h.mem_pending]
      · have hcc2 : c ≠ r.code := fun he => hcc he.symm
        simp [hcc, hcc2, h.mem_pending c]
    · intro c hc
      have hm := h.mult c hc
      rw [hq, resCount_cons] at hm
      show queueCount c s.codeQueue + resCount c rest +
        resCount c (s.results ++ [r]) ≤ 1
      rw [resCount_append, resCount_singleton]
      by_cases hcc : r.code = c <;> simp [hcc] at hm ⊢ <;> omega
    · exact h.queue_codes
    · intro r2 hr2
      exact h.rq_ok r2 (by rw [hq]; exact List.mem_cons_of_mem _ hr2)
    · intro r2 hr2
      simp only [collectResult, List.mem_append, List.mem_singleton] at hr2
      rcases hr2 with hr2 | rfl
      · exact h.rs_ok r2 hr2
      · exact hrq
  | collectIdle hrq hp =>
    constructor
    · intro _; exact hp
    · exact h.mem_pending
    · exact h.mult
    · exact h.queue_codes
    · exact h.rq_ok
    · exact h.rs_ok
  | pauseCall hs =>
    constructor
    · intro hc; simp at hc
    · exact h.mem_pending
    · exact h.mult
    · exact h.queue_codes
    · exact h.rq_ok
    · exact h.rs_ok
  | resumeCall hs =>
    constructor
    · intro hc; simp at hc
    · exact h.mem_pending
    · exact h.mult
    · exact h.queue_codes
    · exact h.rq_ok
    · exact h.rs_ok

/-- Whenever the pending set is empty, the collector's next iteration
completes the session. -/
lemma completion_step (s : CheckerState) (hp : s.pending = ∅) :
    ∃ s2, SessionStep s s2 ∧ s2.status = .completed := by
  cases hq : s.resultQueue with
  | nil => exact ⟨_, SessionStep.collectIdle s hq hp, rfl⟩
  | cons r rest =>
    refine ⟨_, SessionStep.collect s r rest hq, ?_⟩
    simp [collectResult, hp]

/-- C1: in every state reachable from a batch start (with pairwise-distinct
codes none of which is the literal `"UNKNOWN"`) without an external
`stop()`: a completed session has an empty pending set; a code is pending
exactly while no `CheckResult` for it has been collected — and at most one
result per code is ever collected, all of them terminal, so each code is
removed from the pending set exactly once, when its terminal result is
produced; and whenever the pending set is empty, the collector's next
iteration sets the session status to `COMPLETED`. -/
theorem pending_set_completion (codes : List String) (hnd : codes.Nodup)
    (hU : "UNKNOWN" ∉ codes) (s : CheckerState)
    (hreach : SessionReachable codes s) :
    (s.status = .completed → s.pending = ∅) ∧
    (∀ c, c ∈ s.pending ↔ (c ∈ codes ∧ ∀ r ∈ s.results, r.code ≠ c)) ∧
    (∀ r ∈ s.results, TerminalRes r) ∧
    (∀ c ∈ codes, resCount c s.results ≤ 1) ∧
    (s.pending = ∅ → ∃ s2, SessionStep s s2 ∧ s2.status = .completed) := by
  have hinv : SessionInvS codes s := by
    induction hreach with
    | refl => exact sessionInv_init codes hnd
    | tail hsteps hstep ih => exact sessionInv_step codes hU hstep ih
  refine ⟨hinv.completed_empty, ?_, ?_, ?_, completion_step s⟩
  · intro c
    rw [hinv.mem_pending c, resCount_eq_zero_iff]
  · intro r hr
    exact (hinv.rs_ok r hr).2
  · intro c hc
    have := hinv.mult c hc
    omega

/-- Witness for `pending_set_completion` at the freshly started one-code
session. -/
theorem pending_set_completion_witness :
    ((["CODE1"] : List String).Nodup ∧ "UNKNOWN" ∉ (["CODE1"] : List String)) ∧
    ("CODE1" ∈ (initState ["CODE1"]).pending ↔
      ("CODE1" ∈ (["CODE1"] : List String) ∧
        ∀ r ∈ (initState ["CODE1"]).results, r.code ≠ "CODE1")) :=
  ⟨⟨by decide, by decide⟩,
   (pending_set_completion ["CODE1"] (by decide) (by decide) _
     Relation.ReflTransGen.refl).2.1 "CODE1"⟩

end XCC
